import Mathlib

/-!
Verification development for the recipe deployment engine in
`pkg/connectorrp/handlers` (file `azure_recipe_handler.go`, sampled as
`src/unnamed/part_000`).  The Go functions `DeployRecipe`,
`getDigestFromManifest` and `getRecipeBytes` are shallowly embedded below.
External collaborators (the ORAS registry client and the ARM deployments
client) are modelled by an environment record whose fields give the outcome
of each external call; the embedding itself follows the Go control flow
line by line, including the runtime faults Go panics on.
-/

namespace RecipeHandlers

/-- Go `error` values as they appear in this file: either a plain message
(`fmt.Errorf` with no embedded cause, or an error produced by a
collaborator) or a stage message embedding the cause
(`fmt.Errorf("stage message %s", err.Error())`). -/
inductive GoError where
  | msg (s : String)
  | wrap (stage : String) (cause : GoError)
deriving DecidableEq, Repr

/-- Whether an error carries a stage message around an underlying cause. -/
def GoError.isWrapped : GoError → Bool
  | .wrap _ _ => true
  | .msg _ => false

/-- Outcome of running a Go function: normal return value, returned error,
or a runtime panic (index out of range, failed single-value type assertion,
nil-pointer dereference). -/
inductive Outcome (α : Type) where
  | ok (a : α)
  | err (e : GoError)
  | panic (m : String)
deriving DecidableEq, Repr

/-- The values `encoding/json` unmarshals into `interface\x7b\x7d`:
null, booleans, numbers, strings, arrays, and objects. -/
inductive JValue where
  | null
  | bool (b : Bool)
  | num (n : Int)
  | str (s : String)
  | arr (elems : List JValue)
  | obj (fields : List (String × JValue))

/-- Go map indexing `m[k]` on a decoded JSON object: `some v` when the key
is present, `none` for the zero value (a nil interface) when it is absent. -/
def jlookup (fields : List (String × JValue)) (k : String) : Option JValue :=
  match fields with
  | [] => none
  | (k2, v) :: rest => if k2 = k then some v else jlookup rest k

/-- Go `strings.Split(s, ":")` on the character list of `s`: the list of
maximal colon-free segments.  Always non-empty; `Split("", ":") = [""]`. -/
def splitColon : List Char → List (List Char)
  | [] => [[]]
  | c :: rest =>
    match splitColon rest with
    | [] => [[]]
    | p :: ps => if c = ':' then [] :: p :: ps else (c :: p) :: ps

/-- The characters of `s` strictly before its first colon (`s` itself if
there is none). -/
def takeUntilColon : List Char → List Char
  | [] => []
  | c :: rest => if c = ':' then [] else c :: takeUntilColon rest

/-- The characters of `s` strictly after its first colon (empty if there is
none). -/
def dropThroughColon : List Char → List Char
  | [] => []
  | c :: rest => if c = ':' then rest else dropThroughColon rest

/-- Modelled from the spec (section 3 / 4.1, not present as a separate
function in the sampled source): `parseReference` splits the input on the
FIRST colon only, the repository being everything before it and the tag
being the ENTIRE remainder after it. -/
def specParseReference (s : String) : String × String :=
  (String.mk (takeUntilColon s.toList), String.mk (dropThroughColon s.toList))

/-- The repository part produced by line 52 of the source,
`strings.Split(templatePath, ":")[0]`. -/
def registryRepoOf (templatePath : String) : Option String :=
  ((splitColon templatePath.toList).get? 0).map String.mk

/-- The tag part produced by line 52 of the source,
`strings.Split(templatePath, ":")[1]` (`none` models the out-of-range
index, which panics in Go). -/
def tagOf (templatePath : String) : Option String :=
  ((splitColon templatePath.toList).get? 1).map String.mk

/-- Lines 140-148 of the source: extract `manifest["layers"].([]interface\x7b\x7d)[0]`
and its `digest` field from the decoded manifest object.  The inner
`.([]interface\x7b\x7d)` is a single-value type assertion and the `[0]` an
unguarded index, both of which panic on failure; only the outer two
assertions use the comma-ok form and produce returned errors. -/
def getLayerDigest (manifest : List (String × JValue)) : Outcome String :=
  match jlookup manifest "layers" with
  | some (JValue.arr elems) =>
    match elems with
    | [] => Outcome.panic "runtime error: index out of range"
    | first :: _ =>
      match first with
      | JValue.obj layer =>
        match jlookup layer "digest" with
        | some (JValue.str d) => Outcome.ok d
        | _ => Outcome.err (GoError.msg "failed to decode the layers digest from manifest")
      | _ => Outcome.err (GoError.msg "failed to decode the layers from manifest")
  | _ => Outcome.panic "interface conversion: interface is not a slice"

/-- Tags for the external calls `DeployRecipe` makes, in the order the
source makes them; registry calls are network calls. -/
inductive CallTag where
  | resolveTag
  | fetchManifest
  | blobResolve
  | fetchBlob
  | createOrUpdate
  | waitForCompletion
  | getResult
deriving DecidableEq, Repr

/-- The terminal ARM deployment result observed via `dplResp.Result`:
`resp.Properties.ProvisioningState` and `resp.Properties.OutputResources`
(a pointer to a slice, hence `Option`; each element's `ID` is a string
pointer, hence `Option String`). -/
structure DeploymentResult where
  provisioningState : String
  outputResources : Option (List (Option String))
deriving DecidableEq, Repr

/-- Behaviour of the external collaborators for one `DeployRecipe`
invocation: each field is the outcome of the corresponding external call
in source order, plus the wall clock used for the deployment name. -/
structure DeployEnv where
  newRepositoryErr : Option GoError
  resolveErr : Option GoError
  fetchManifestErr : Option GoError
  readManifestErr : Option GoError
  manifestDoc : Except String (List (String × JValue))
  blobResolveErr : Option GoError
  fetchBlobErr : Option GoError
  readBlobErr : Option GoError
  recipeDoc : Except String (List (String × JValue))
  createOrUpdateErr : Option GoError
  waitErr : Option GoError
  resultErr : Option GoError
  deployResult : DeploymentResult
  nowNano : Int

/-- Lines 117-149 of the source (`getDigestFromManifest`): resolve the tag,
fetch and read the manifest, unmarshal it, and extract the first layer
digest.  Returns the outcome together with the network calls made. -/
def getDigestFromManifest (env : DeployEnv) : Outcome String × List CallTag :=
  match env.resolveErr with
  | some e => (Outcome.err e, [CallTag.resolveTag])
  | none =>
    match env.fetchManifestErr with
    | some e => (Outcome.err e, [CallTag.resolveTag, CallTag.fetchManifest])
    | none =>
      match env.readManifestErr with
      | some e => (Outcome.err e, [CallTag.resolveTag, CallTag.fetchManifest])
      | none =>
        match env.manifestDoc with
        | Except.error m => (Outcome.err (GoError.msg m), [CallTag.resolveTag, CallTag.fetchManifest])
        | Except.ok manifest => (getLayerDigest manifest, [CallTag.resolveTag, CallTag.fetchManifest])

/-- Lines 152-169 of the source (`getRecipeBytes`): resolve the blob
descriptor for the layer digest, fetch and read the blob.  The bytes
themselves are carried by `env.recipeDoc` downstream, so the value is unit
here. -/
def getRecipeBytes (env : DeployEnv) : Outcome Unit × List CallTag :=
  match env.blobResolveErr with
  | some e => (Outcome.err e, [CallTag.blobResolve])
  | none =>
    match env.fetchBlobErr with
    | some e => (Outcome.err e, [CallTag.blobResolve, CallTag.fetchBlob])
    | none =>
      match env.readBlobErr with
      | some e => (Outcome.err e, [CallTag.blobResolve, CallTag.fetchBlob])
      | none => (Outcome.ok (), [CallTag.blobResolve, CallTag.fetchBlob])

/-- Line 79 of the source: `deploymtName := "recipe" +
strconv.FormatInt(time.Now().UnixNano(), 10)`. -/
def deploymentNameOf (nowNano : Int) : String := "recipe" ++ toString nowNano

/-- Lines 109-112 of the source: the loop `for _, id := range
*resp.Properties.OutputResources \x7b result = append(result, *id.ID) \x7d`;
dereferencing a nil `ID` pointer panics. -/
def collectIDs : List (Option String) → Outcome (List String)
  | [] => Outcome.ok []
  | none :: _ => Outcome.panic "runtime error: invalid memory address or nil pointer dereference"
  | some i :: rest =>
    match collectIDs rest with
    | Outcome.ok ids => Outcome.ok (i :: ids)
    | Outcome.err e => Outcome.err e
    | Outcome.panic m => Outcome.panic m

/-- Lines 51-114 of the source (`DeployRecipe`): split the template path on
colons and index parts 0 and 1 (line 52, unguarded, so a path with no colon
panics before the emptiness check of line 53 can run), create the registry
client, resolve the manifest digest, fetch the recipe blob, unmarshal it,
submit the deployment, wait for completion, retrieve the result, and on
`Succeeded` collect the output resource IDs.  Returns the outcome together
with the list of external calls made, in order. -/
def DeployRecipe (env : DeployEnv) (templatePath subscriptionID resourceGroupName : String) :
    Outcome (List String) × List CallTag :=
  match splitColon templatePath.toList with
  | [] => (Outcome.panic "runtime error: index out of range", [])
  | [_] => (Outcome.panic "runtime error: index out of range", [])
  | _registryRepo :: _tag :: _ =>
    if templatePath = "" then
      (Outcome.err (GoError.msg "templatePath cannot be empty"), [])
    else
      match env.newRepositoryErr with
      | some e => (Outcome.err (GoError.wrap "failed to create client to registry" e), [])
      | none =>
        match getDigestFromManifest env with
        | (Outcome.panic m, tr) => (Outcome.panic m, tr)
        | (Outcome.err e, tr) =>
          (Outcome.err (GoError.wrap "failed to fetch recipe manifest from registry" e), tr)
        | (Outcome.ok _digest, tr1) =>
          match getRecipeBytes env with
          | (Outcome.panic m, tr2) => (Outcome.panic m, tr1 ++ tr2)
          | (Outcome.err e, tr2) =>
            (Outcome.err (GoError.wrap "failed to fetch recipe template from registry" e), tr1 ++ tr2)
          | (Outcome.ok _, tr2) =>
            match env.recipeDoc with
            | Except.error m => (Outcome.err (GoError.msg m), tr1 ++ tr2)
            | Except.ok _recipe =>
              match env.createOrUpdateErr with
              | some e => (Outcome.err e, tr1 ++ tr2 ++ [CallTag.createOrUpdate])
              | none =>
                match env.waitErr with
                | some e =>
                  (Outcome.err e,
                    tr1 ++ tr2 ++ [CallTag.createOrUpdate, CallTag.waitForCompletion])
                | none =>
                  match env.resultErr with
                  | some e =>
                    (Outcome.err e,
                      tr1 ++ tr2 ++
                        [CallTag.createOrUpdate, CallTag.waitForCompletion, CallTag.getResult])
                  | none =>
                    let tr := tr1 ++ tr2 ++
                      [CallTag.createOrUpdate, CallTag.waitForCompletion, CallTag.getResult]
                    if env.deployResult.provisioningState ≠ "Succeeded" then
                      (Outcome.err (GoError.msg
                        ("failed to deploy recipe - " ++ deploymentNameOf env.nowNano)), tr)
                    else
                      match env.deployResult.outputResources with
                      | none =>
                        (Outcome.panic
                          "runtime error: invalid memory address or nil pointer dereference", tr)
                      | some rs => (collectIDs rs, tr)

/-- A well-formed manifest object, as in the scenario of spec section 8. -/
def goodManifest : List (String × JValue) :=
  [("schemaVersion", JValue.num 2),
   ("layers", JValue.arr [JValue.obj
      [("mediaType", JValue.str "application/vnd.test"),
       ("digest", JValue.str "sha256:abcd"),
       ("size", JValue.num 100)]])]

/-- A terminal deployment result reporting `Succeeded` with one output
resource. -/
def succeededResult : DeploymentResult :=
  { provisioningState := "Succeeded"
    outputResources := some [some "/subscriptions/s/resourceGroups/g/providers/p/bus1"] }

/-- An environment in which every external call succeeds: the happy path
of the engine. -/
def baseEnv : DeployEnv :=
  { newRepositoryErr := none
    resolveErr := none
    fetchManifestErr := none
    readManifestErr := none
    manifestDoc := Except.ok goodManifest
    blobResolveErr := none
    fetchBlobErr := none
    readBlobErr := none
    recipeDoc := Except.ok [("resources", JValue.arr [])]
    createOrUpdateErr := none
    waitErr := none
    resultErr := none
    deployResult := succeededResult
    nowNano := 7 }

/-! ### Structural lemmas about colon splitting -/

theorem splitColon_ne_nil (cs : List Char) : splitColon cs ≠ [] := by
  cases cs with
  | nil => simp [splitColon]
  | cons c rest =>
    simp only [splitColon]
    repeat' split
    all_goals simp

theorem splitColon_of_not_mem (cs : List Char) (h : ':' ∉ cs) : splitColon cs = [cs] := by
  induction cs with
  | nil => rfl
  | cons c rest ih =>
    have hc : c ≠ ':' := fun e => h (e ▸ List.mem_cons_self c rest)
    have hrest : ':' ∉ rest := fun m => h (List.mem_cons_of_mem _ m)
    simp [splitColon, ih hrest, hc]

theorem takeUntilColon_of_not_mem (cs : List Char) (h : ':' ∉ cs) : takeUntilColon cs = cs := by
  induction cs with
  | nil => rfl
  | cons c rest ih =>
    have hc : c ≠ ':' := fun e => h (e ▸ List.mem_cons_self c rest)
    have hrest : ':' ∉ rest := fun m => h (List.mem_cons_of_mem _ m)
    simp [takeUntilColon, hc, ih hrest]

theorem splitColon_of_mem (cs : List Char) (h : ':' ∈ cs) :
    splitColon cs = takeUntilColon cs :: splitColon (dropThroughColon cs) := by
  induction cs with
  | nil => cases h
  | cons c rest ih =>
    by_cases hc : c = ':'
    · subst hc
      simp only [splitColon, takeUntilColon, dropThroughColon, if_pos rfl]
      cases hsr : splitColon rest with
      | nil => exact absurd hsr (splitColon_ne_nil rest)
      | cons p ps => simp [hsr]
    · have hrest : ':' ∈ rest := by
        cases h with
        | head => exact absurd rfl hc
        | tail _ hm => exact hm
      simp [splitColon, takeUntilColon, dropThroughColon, hc, ih hrest]

theorem splitColon_head (cs : List Char) : ∃ ps, splitColon cs = takeUntilColon cs :: ps := by
  by_cases h : ':' ∈ cs
  · exact ⟨_, splitColon_of_mem cs h⟩
  · exact ⟨[], by rw [splitColon_of_not_mem cs h, takeUntilColon_of_not_mem cs h]⟩

theorem mem_colon_ne_empty (s : String) (h : ':' ∈ s.toList) : s ≠ "" := by
  intro e
  subst e
  cases h

/-! ### Lemmas about the collectIDs loop and call traces -/

theorem collectIDs_map_some (ids : List String) : collectIDs (ids.map some) = Outcome.ok ids := by
  induction ids with
  | nil => rfl
  | cons i rest ih => simp [collectIDs, ih]

theorem getDigest_trace_ne_nil (env : DeployEnv) : (getDigestFromManifest env).2 ≠ [] := by
  unfold getDigestFromManifest
  repeat' split
  all_goals simp

theorem getDigest_trace_no_deploy (env : DeployEnv) :
    CallTag.createOrUpdate ∉ (getDigestFromManifest env).2 := by
  unfold getDigestFromManifest
  repeat' split
  all_goals simp

theorem getRecipeBytes_trace_no_deploy (env : DeployEnv) :
    CallTag.createOrUpdate ∉ (getRecipeBytes env).2 := by
  unfold getRecipeBytes
  repeat' split
  all_goals simp

/-- When every stage up to result retrieval succeeds, `DeployRecipe` reduces
to the result-extraction step: the provisioning-state check, then the
output-resource collection loop, with the full call trace. -/
theorem DeployRecipe_terminal (env : DeployEnv) (templatePath sub rg d : String)
    (recipe : List (String × JValue)) (tr1 tr2 : List CallTag)
    (hcolon : ':' ∈ templatePath.toList)
    (h1 : env.newRepositoryErr = none)
    (h2 : getDigestFromManifest env = (Outcome.ok d, tr1))
    (h3 : getRecipeBytes env = (Outcome.ok (), tr2))
    (h4 : env.recipeDoc = Except.ok recipe)
    (h5 : env.createOrUpdateErr = none)
    (h6 : env.waitErr = none)
    (h7 : env.resultErr = none) :
    DeployRecipe env templatePath sub rg =
      ((if env.deployResult.provisioningState ≠ "Succeeded" then
          Outcome.err (GoError.msg ("failed to deploy recipe - " ++ deploymentNameOf env.nowNano))
        else
          match env.deployResult.outputResources with
          | none => Outcome.panic "runtime error: invalid memory address or nil pointer dereference"
          | some rs => collectIDs rs),
       tr1 ++ tr2 ++ [CallTag.createOrUpdate, CallTag.waitForCompletion, CallTag.getResult]) := by
  obtain ⟨p, ps, hps⟩ :=
    List.exists_cons_of_ne_nil (splitColon_ne_nil (dropThroughColon templatePath.toList))
  unfold DeployRecipe
  rw [splitColon_of_mem _ hcolon, hps, if_neg (mem_colon_ne_empty _ hcolon),
    h1, h2, h3, h4, h5, h6, h7]
  by_cases hb : env.deployResult.provisioningState ≠ "Succeeded"
  · simp only [if_pos hb]
  · simp only [if_neg hb]
    cases env.deployResult.outputResources <;> rfl

/-- C1: the spec requires that an empty, colon-free, or empty-sided
reference makes `DeployRecipe` fail with an `InvalidReference` error, with
zero network calls for the empty string.  The code instead indexes
`strings.Split(templatePath, ":")[1]` before any validation (line 52), so
the empty reference makes `DeployRecipe` fault with an index-out-of-range
panic — with zero network calls but no `InvalidReference` error; the
intended emptiness guard on line 53 is dead code. -/
theorem C1_empty_reference_faults (env : DeployEnv) (sub rg : String) :
    DeployRecipe env "" sub rg = (Outcome.panic "runtime error: index out of range", []) := rfl

/-- C1 witness: the empty reference faults at the split index in the happy
environment, with zero external calls made. -/
theorem C1_empty_reference_faults_witness :
    DeployRecipe baseEnv "" "sub" "rg" =
      (Outcome.panic "runtime error: index out of range", []) :=
  C1_empty_reference_faults baseEnv "sub" "rg"

/-- C2: the spec requires that a manifest with an empty `layers` array (or
none at all) makes layer-digest resolution fail with a decode error, never
a runtime fault.  The code instead panics: the unguarded `[0]` index on an
empty `layers` array is an index-out-of-range fault, and the single-value
type assertion `.([]interface\x7b\x7d)` on a missing `layers` key is an
interface-conversion fault; the decode-error return on line 142 never
runs for these inputs. -/
theorem C2_missing_layers_fault :
    getLayerDigest [("layers", JValue.arr [])] =
        Outcome.panic "runtime error: index out of range" ∧
    getLayerDigest [("schemaVersion", JValue.num 2)] =
        Outcome.panic "interface conversion: interface is not a slice" ∧
    (getDigestFromManifest
        { baseEnv with manifestDoc := Except.ok [("layers", JValue.arr [])] }).1 =
      Outcome.panic "runtime error: index out of range" :=
  ⟨rfl, rfl, rfl⟩

/-- C5 counterexample: the claim says the tag is the ENTIRE remainder after
the first colon.  On input `"a:b:c"` the code computes tag `"b"` (the
segment between the first and second colon), not the remainder `"b:c"`
that splitting on the first colon only would give. -/
theorem C5_first_colon_counterexample :
    tagOf "a:b:c" = some "b" ∧
    (specParseReference "a:b:c").2 = "b:c" ∧
    tagOf "a:b:c" ≠ some ((specParseReference "a:b:c").2) := by
  refine ⟨rfl, rfl, ?_⟩
  intro h
  simp [tagOf, specParseReference, splitColon, takeUntilColon, dropThroughColon] at h

/-- C5 amended: for every input containing a colon, the repository is the
segment before the first colon, and the tag is the segment strictly between
the first and second colons (everything after a second colon is dropped,
because `strings.Split` splits at every colon and line 52 takes index 1). -/
theorem C5_split_segments (s : String) (h : ':' ∈ s.toList) :
    registryRepoOf s = some (String.mk (takeUntilColon s.toList)) ∧
    tagOf s = some (String.mk (takeUntilColon (dropThroughColon s.toList))) := by
  obtain ⟨ps, hps⟩ := splitColon_head (dropThroughColon s.toList)
  constructor
  · unfold registryRepoOf
    rw [splitColon_of_mem _ h]
    rfl
  · unfold tagOf
    rw [splitColon_of_mem _ h, hps]
    rfl

/-- C5 amended, witness: on `"a:b:c"` the parse yields repository `"a"`
and tag `"b"`. -/
theorem C5_split_segments_witness :
    registryRepoOf "a:b:c" = some "a" ∧ tagOf "a:b:c" = some "b" :=
  C5_split_segments "a:b:c" (by decide)

/-- C6 counterexample: the claim says every failing stage wraps the cause
with a stage prefix.  When the fetched template bytes fail to unmarshal
(line 71-74 of the source), `DeployRecipe` returns the unmarshal error
itself, with no stage message around it. -/
theorem C6_unwrapped_decode_error :
    (DeployRecipe { baseEnv with recipeDoc := Except.error "unexpected end of JSON input" }
        "repo:tag" "sub" "rg").1 =
      Outcome.err (GoError.msg "unexpected end of JSON input") ∧
    (GoError.msg "unexpected end of JSON input").isWrapped = false :=
  ⟨rfl, rfl⟩

/-- C6 amended: the three registry-facing stages (client creation, manifest
resolution, blob fetch) wrap the cause with a stage-identifying message,
but template decode, deployment submission, completion wait, and result
retrieval return the underlying cause unwrapped. -/
theorem C6_stage_wrapping (e : GoError) (m : String) :
    (DeployRecipe { baseEnv with newRepositoryErr := some e } "repo:tag" "sub" "rg").1 =
        Outcome.err (GoError.wrap "failed to create client to registry" e) ∧
    (DeployRecipe { baseEnv with resolveErr := some e } "repo:tag" "sub" "rg").1 =
        Outcome.err (GoError.wrap "failed to fetch recipe manifest from registry" e) ∧
    (DeployRecipe { baseEnv with fetchBlobErr := some e } "repo:tag" "sub" "rg").1 =
        Outcome.err (GoError.wrap "failed to fetch recipe template from registry" e) ∧
    (DeployRecipe { baseEnv with recipeDoc := Except.error m } "repo:tag" "sub" "rg").1 =
        Outcome.err (GoError.msg m) ∧
    (DeployRecipe { baseEnv with createOrUpdateErr := some e } "repo:tag" "sub" "rg").1 =
        Outcome.err e ∧
    (DeployRecipe { baseEnv with waitErr := some e } "repo:tag" "sub" "rg").1 =
        Outcome.err e ∧
    (DeployRecipe { baseEnv with resultErr := some e } "repo:tag" "sub" "rg").1 =
        Outcome.err e :=
  ⟨rfl, rfl, rfl, rfl, rfl, rfl, rfl⟩

/-- C6 amended, witness: the wrapping behaviour of each stage at a concrete
transport cause and a concrete unmarshal message. -/
theorem C6_stage_wrapping_witness :
    (DeployRecipe { baseEnv with newRepositoryErr := some (GoError.msg "boom") }
        "repo:tag" "sub" "rg").1 =
        Outcome.err (GoError.wrap "failed to create client to registry" (GoError.msg "boom")) ∧
    (DeployRecipe { baseEnv with resolveErr := some (GoError.msg "boom") }
        "repo:tag" "sub" "rg").1 =
        Outcome.err (GoError.wrap "failed to fetch recipe manifest from registry"
          (GoError.msg "boom")) ∧
    (DeployRecipe { baseEnv with fetchBlobErr := some (GoError.msg "boom") }
        "repo:tag" "sub" "rg").1 =
        Outcome.err (GoError.wrap "failed to fetch recipe template from registry"
          (GoError.msg "boom")) ∧
    (DeployRecipe { baseEnv with recipeDoc := Except.error "bad json" }
        "repo:tag" "sub" "rg").1 = Outcome.err (GoError.msg "bad json") ∧
    (DeployRecipe { baseEnv with createOrUpdateErr := some (GoError.msg "boom") }
        "repo:tag" "sub" "rg").1 = Outcome.err (GoError.msg "boom") ∧
    (DeployRecipe { baseEnv with waitErr := some (GoError.msg "boom") }
        "repo:tag" "sub" "rg").1 = Outcome.err (GoError.msg "boom") ∧
    (DeployRecipe { baseEnv with resultErr := some (GoError.msg "boom") }
        "repo:tag" "sub" "rg").1 = Outcome.err (GoError.msg "boom") :=
  C6_stage_wrapping (GoError.msg "boom") "bad json"

/-- C3: when every stage succeeds and the backend's terminal result reports
`Succeeded` with an output-resource sequence, `DeployRecipe` returns
exactly the identifiers of that sequence, in backend-reported order, with
no error. -/
theorem C3_succeeded_outputs (env : DeployEnv) (templatePath sub rg d : String)
    (recipe : List (String × JValue)) (tr1 tr2 : List CallTag) (ids : List String)
    (hcolon : ':' ∈ templatePath.toList)
    (h1 : env.newRepositoryErr = none)
    (h2 : getDigestFromManifest env = (Outcome.ok d, tr1))
    (h3 : getRecipeBytes env = (Outcome.ok (), tr2))
    (h4 : env.recipeDoc = Except.ok recipe)
    (h5 : env.createOrUpdateErr = none)
    (h6 : env.waitErr = none)
    (h7 : env.resultErr = none)
    (h8 : env.deployResult =
      { provisioningState := "Succeeded", outputResources := some (ids.map some) }) :
    (DeployRecipe env templatePath sub rg).1 = Outcome.ok ids := by
  rw [DeployRecipe_terminal env templatePath sub rg d recipe tr1 tr2 hcolon h1 h2 h3 h4 h5 h6 h7]
  simp [h8, collectIDs_map_some]

/-- C3 witness: with a backend echoing `Succeeded` and two output
resources, `DeployRecipe` returns exactly those two identifiers in
order. -/
theorem C3_succeeded_outputs_witness :
    (DeployRecipe
        { baseEnv with deployResult :=
            { provisioningState := "Succeeded", outputResources := some [some "a1", some "b2"] } }
        "repo:tag" "sub" "rg").1 = Outcome.ok ["a1", "b2"] :=
  C3_succeeded_outputs _ "repo:tag" "sub" "rg" "sha256:abcd"
    [("resources", JValue.arr [])] [CallTag.resolveTag, CallTag.fetchManifest]
    [CallTag.blobResolve, CallTag.fetchBlob] ["a1", "b2"]
    (by decide) rfl rfl rfl rfl rfl rfl rfl rfl

/-- C4: when the terminal result's provisioning state is not `Succeeded`,
`DeployRecipe` returns the `DeploymentFailed` error naming the generated
deployment name (and hence no resource list). -/
theorem C4_failed_provisioning (env : DeployEnv) (templatePath sub rg d : String)
    (recipe : List (String × JValue)) (tr1 tr2 : List CallTag)
    (hcolon : ':' ∈ templatePath.toList)
    (h1 : env.newRepositoryErr = none)
    (h2 : getDigestFromManifest env = (Outcome.ok d, tr1))
    (h3 : getRecipeBytes env = (Outcome.ok (), tr2))
    (h4 : env.recipeDoc = Except.ok recipe)
    (h5 : env.createOrUpdateErr = none)
    (h6 : env.waitErr = none)
    (h7 : env.resultErr = none)
    (h8 : env.deployResult.provisioningState ≠ "Succeeded") :
    (DeployRecipe env templatePath sub rg).1 =
      Outcome.err (GoError.msg ("failed to deploy recipe - " ++ deploymentNameOf env.nowNano)) := by
  rw [DeployRecipe_terminal env templatePath sub rg d recipe tr1 tr2 hcolon h1 h2 h3 h4 h5 h6 h7]
  simp [h8]

/-- C4 witness: a backend reporting `Failed` makes `DeployRecipe` return
the error naming deployment `recipe7`. -/
theorem C4_failed_provisioning_witness :
    (DeployRecipe
        { baseEnv with deployResult :=
            { provisioningState := "Failed", outputResources := some [] } }
        "repo:tag" "sub" "rg").1 =
      Outcome.err (GoError.msg ("failed to deploy recipe - " ++ deploymentNameOf 7)) :=
  C4_failed_provisioning _ "repo:tag" "sub" "rg" "sha256:abcd"
    [("resources", JValue.arr [])] [CallTag.resolveTag, CallTag.fetchManifest]
    [CallTag.blobResolve, CallTag.fetchBlob]
    (by decide) rfl rfl rfl rfl rfl rfl rfl (by decide)

/-- C7: when manifest resolution succeeds and the blob fetch fails with a
transport error, `DeployRecipe` returns the error wrapped with the
blob-fetch stage message, and the deployment backend is never invoked. -/
theorem C7_blob_fetch_no_deploy (env : DeployEnv) (templatePath sub rg d : String)
    (tr1 : List CallTag) (e : GoError)
    (hcolon : ':' ∈ templatePath.toList)
    (h1 : env.newRepositoryErr = none)
    (h2 : getDigestFromManifest env = (Outcome.ok d, tr1))
    (h3 : env.blobResolveErr = none)
    (h4 : env.fetchBlobErr = some e) :
    (DeployRecipe env templatePath sub rg).1 =
        Outcome.err (GoError.wrap "failed to fetch recipe template from registry" e) ∧
    CallTag.createOrUpdate ∉ (DeployRecipe env templatePath sub rg).2 := by
  obtain ⟨p, ps, hps⟩ :=
    List.exists_cons_of_ne_nil (splitColon_ne_nil (dropThroughColon templatePath.toList))
  have htr1 : CallTag.createOrUpdate ∉ tr1 := by
    have h := getDigest_trace_no_deploy env
    rw [h2] at h
    exact h
  unfold DeployRecipe
  rw [splitColon_of_mem _ hcolon, hps, if_neg (mem_colon_ne_empty _ hcolon), h1, h2]
  unfold getRecipeBytes
  rw [h3, h4]
  refine ⟨rfl, ?_⟩
  simp [List.mem_append, htr1]

/-- C7 witness: blob fetch failing with a transport error yields the
wrapped registry error and a call trace without a deployment
submission. -/
theorem C7_blob_fetch_no_deploy_witness :
    (DeployRecipe { baseEnv with fetchBlobErr := some (GoError.msg "connection reset") }
        "repo:tag" "sub" "rg").1 =
        Outcome.err (GoError.wrap "failed to fetch recipe template from registry"
          (GoError.msg "connection reset")) ∧
    CallTag.createOrUpdate ∉
      (DeployRecipe { baseEnv with fetchBlobErr := some (GoError.msg "connection reset") }
        "repo:tag" "sub" "rg").2 :=
  C7_blob_fetch_no_deploy _ "repo:tag" "sub" "rg" "sha256:abcd"
    [CallTag.resolveTag, CallTag.fetchManifest] (GoError.msg "connection reset")
    (by decide) rfl rfl rfl rfl

/-- C8: when the first `layers` entry is an object without a string-typed
`digest` field, layer-digest resolution fails with the digest decode
error — a returned error, not a runtime fault and not a registry error. -/
theorem C8_digest_not_string (manifest layer : List (String × JValue)) (others : List JValue)
    (hl : jlookup manifest "layers" = some (JValue.arr (JValue.obj layer :: others)))
    (hd : ∀ d, jlookup layer "digest" ≠ some (JValue.str d)) :
    getLayerDigest manifest =
      Outcome.err (GoError.msg "failed to decode the layers digest from manifest") := by
  have hred : getLayerDigest manifest =
      (match jlookup layer "digest" with
        | some (JValue.str d) => Outcome.ok d
        | _ => Outcome.err (GoError.msg "failed to decode the layers digest from manifest")) := by
    unfold getLayerDigest
    rw [hl]
  rw [hred]
  split
  · rename_i d hdig
    exact absurd hdig (hd d)
  · rfl

/-- C8 witness: a first layer whose `digest` is a number fails with the
digest decode error. -/
theorem C8_digest_not_string_witness :
    getLayerDigest [("layers", JValue.arr [JValue.obj [("digest", JValue.num 5)]])] =
      Outcome.err (GoError.msg "failed to decode the layers digest from manifest") :=
  C8_digest_not_string _ [("digest", JValue.num 5)] [] rfl
    (fun d h => by simp [jlookup] at h)

/-- C10: when the terminal result reports `Succeeded` but carries no
`outputResources` (a nil pointer), `DeployRecipe` dereferences it with no
guard and faults — it returns neither a resource list nor an error. -/
theorem C10_nil_outputs_faults (env : DeployEnv) (templatePath sub rg d : String)
    (recipe : List (String × JValue)) (tr1 tr2 : List CallTag)
    (hcolon : ':' ∈ templatePath.toList)
    (h1 : env.newRepositoryErr = none)
    (h2 : getDigestFromManifest env = (Outcome.ok d, tr1))
    (h3 : getRecipeBytes env = (Outcome.ok (), tr2))
    (h4 : env.recipeDoc = Except.ok recipe)
    (h5 : env.createOrUpdateErr = none)
    (h6 : env.waitErr = none)
    (h7 : env.resultErr = none)
    (h8 : env.deployResult =
      { provisioningState := "Succeeded", outputResources := none }) :
    (DeployRecipe env templatePath sub rg).1 =
      Outcome.panic "runtime error: invalid memory address or nil pointer dereference" := by
  rw [DeployRecipe_terminal env templatePath sub rg d recipe tr1 tr2 hcolon h1 h2 h3 h4 h5 h6 h7]
  simp [h8]

/-- C10 witness: a `Succeeded` result with absent output resources makes
`DeployRecipe` fault with a nil-pointer dereference. -/
theorem C10_nil_outputs_faults_witness :
    (DeployRecipe
        { baseEnv with deployResult :=
            { provisioningState := "Succeeded", outputResources := none } }
        "repo:tag" "sub" "rg").1 =
      Outcome.panic "runtime error: invalid memory address or nil pointer dereference" :=
  C10_nil_outputs_faults _ "repo:tag" "sub" "rg" "sha256:abcd"
    [("resources", JValue.arr [])] [CallTag.resolveTag, CallTag.fetchManifest]
    [CallTag.blobResolve, CallTag.fetchBlob]
    (by decide) rfl rfl rfl rfl rfl rfl rfl rfl

/-- C9: the `templatePath cannot be empty` guard on line 53 is dead code:
every input without a colon (the empty string included) faults with an
index-out-of-range panic at the unguarded `[1]` index on line 52 before the
guard can run, and with a colon present the path cannot be empty, so no
`DeployRecipe` call ever returns the guard's error (an
`InvalidReference`-style error with no external call made). -/
theorem C9_dead_empty_guard :
    (∀ (env : DeployEnv) (s sub rg : String), ':' ∉ s.toList →
      DeployRecipe env s sub rg = (Outcome.panic "runtime error: index out of range", [])) ∧
    (∀ (env : DeployEnv) (s sub rg : String),
      DeployRecipe env s sub rg ≠
        (Outcome.err (GoError.msg "templatePath cannot be empty"), [])) := by
  constructor
  · intro env s sub rg h
    unfold DeployRecipe
    rw [splitColon_of_not_mem _ h]
  · intro env s sub rg
    have htr := getDigest_trace_ne_nil env
    unfold DeployRecipe
    rcases hsp : splitColon s.toList with _ | ⟨a, _ | ⟨b, l⟩⟩
    · simp
    · simp
    · have hs : s ≠ "" := by
        intro he
        subst he
        rw [show splitColon "".toList = [[]] from rfl] at hsp
        simp at hsp
      rw [if_neg hs]
      repeat' split
      all_goals simp_all [List.append_eq_nil]

/-- C9 witness: on the colon-free input `"abc"` the call faults at the
split index with no external call, and in particular does not return the
dead guard's error. -/
theorem C9_dead_empty_guard_witness :
    DeployRecipe baseEnv "abc" "sub" "rg" =
        (Outcome.panic "runtime error: index out of range", []) ∧
    DeployRecipe baseEnv "abc" "sub" "rg" ≠
        (Outcome.err (GoError.msg "templatePath cannot be empty"), []) :=
  ⟨C9_dead_empty_guard.1 baseEnv "abc" "sub" "rg" (by decide),
   C9_dead_empty_guard.2 baseEnv "abc" "sub" "rg"⟩

end RecipeHandlers
